import Mathlib

/-!
Verification of the download-orchestration core of the yt-downloader
repository, as a shallow embedding in Lean.

The embedded code comes from `src/download/retry_handler.py` and
`src/download/manager.py`:
* `CookieExpiryDetector.is_cookie_expired` / `is_playlist_url`
* `RetryHandler.execute_with_retry` / `_handle_cookie_expiry`
* `PlaylistExtractor._is_valid_youtube_url` / `extract_video_urls` /
  `extract_video_info`
* `DownloadManager._is_cookie_error`, `_detect_download_phase`,
  `_parse_progress_line`, `_download_video_async`, the `DownloadState`
  lifecycle helpers and `update_retry_config`.

Python strings are modelled as `String` / `List Char`; ASCII
case-folding models `str.lower()` (all patterns involved are ASCII);
`float` values are modelled as `Rat` together with a decimal parser
modelling the builtin `float()` on the simple numeric tokens that occur
in progress lines.  `async` effects (the download callable, subprocess
execution, sleeping, callbacks) are modelled by explicit inputs and by
an event trace recording the observable interactions.
-/

/-- ASCII lower-casing of one character, modelling `str.lower()` on the
ASCII range (every pattern the code matches against is ASCII). -/
def lowerChar (c : Char) : Char :=
  match c with
  | 'A' => 'a' | 'B' => 'b' | 'C' => 'c' | 'D' => 'd' | 'E' => 'e'
  | 'F' => 'f' | 'G' => 'g' | 'H' => 'h' | 'I' => 'i' | 'J' => 'j'
  | 'K' => 'k' | 'L' => 'l' | 'M' => 'm' | 'N' => 'n' | 'O' => 'o'
  | 'P' => 'p' | 'Q' => 'q' | 'R' => 'r' | 'S' => 's' | 'T' => 't'
  | 'U' => 'u' | 'V' => 'v' | 'W' => 'w' | 'X' => 'x' | 'Y' => 'y'
  | 'Z' => 'z'
  | other => other

/-- Lower-case a character list (model of `str.lower()`). -/
def lowerStr (s : List Char) : List Char := s.map lowerChar

/-- Whether `pat` occurs at the very start of `s`. -/
def preOf : List Char → List Char → Bool
  | [], _ => true
  | _ :: _, [] => false
  | a :: as, b :: bs => a == b && preOf as bs

/-- Whether `pat` occurs as a contiguous substring of the second list;
models the Python `pat in s` test and `re.search` on a literal pattern. -/
def hasSub (pat : List Char) : List Char → Bool
  | [] => pat.isEmpty
  | c :: t => preOf pat (c :: t) || hasSub pat t

/-- Whether the literal `a`, then an arbitrary newline-free gap, then the
literal `b` occur in `s`; models `re.search` on a pattern of the shape
`a.*b` (the `.` wildcard does not cross a newline). -/
def gapMatchAt (a b s : List Char) : Bool :=
  preOf a s && hasSub b ((s.drop a.length).takeWhile (fun c => c ≠ '\n'))

/-- Search version of `gapMatchAt`: tries every start position, like
`re.search`. -/
def searchGap (a b : List Char) : List Char → Bool
  | [] => gapMatchAt a b []
  | c :: t => gapMatchAt a b (c :: t) || searchGap a b t

/-- Model of `str.strip()`: remove leading and trailing whitespace. -/
def pyStrip (s : List Char) : List Char :=
  ((s.dropWhile Char.isWhitespace).reverse.dropWhile Char.isWhitespace).reverse

/-- Model of `str.split(sep)` for a one-character separator (keeps empty
pieces, like Python). -/
def splitOnChar (sep : Char) : List Char → List (List Char)
  | [] => [[]]
  | c :: t =>
    if c = sep then [] :: splitOnChar sep t
    else
      match splitOnChar sep t with
      | [] => [[c]]
      | h :: r => (c :: h) :: r

/-- Helper for `splitWords`: accumulates the current word (reversed). -/
def wordsAux : List Char → List Char → List (List Char)
  | acc, [] => if acc.isEmpty then [] else [acc.reverse]
  | acc, c :: cs =>
    if c.isWhitespace then
      if acc.isEmpty then wordsAux [] cs else acc.reverse :: wordsAux [] cs
    else wordsAux (c :: acc) cs

/-- Model of argument-less `str.split()`: split on whitespace runs,
discarding empty pieces. -/
def splitWords (s : String) : List String :=
  (wordsAux [] s.data).map (fun w => String.mk w)

/-! ## `CookieExpiryDetector` (src/download/retry_handler.py) -/

/-- Embedding of `CookieExpiryDetector.is_cookie_expired`: case-insensitive
`re.search` of each pattern in `COOKIE_EXPIRY_PATTERNS` (patterns with `.*`
are modelled by `searchGap`, literal patterns by `hasSub`). -/
def is_cookie_expired (error_message : String) : Bool :=
  let l := lowerStr error_message.data
  searchGap ("http error 403").data ("forbidden").data l
  || hasSub ("sign in to confirm your age").data l
  || hasSub ("this video is only available to music premium members").data l
  || hasSub ("members-only content").data l
  || hasSub ("this video is private").data l
  || searchGap ("video unavailable").data ("members").data l
  || searchGap ("cookies").data ("expired").data l
  || searchGap ("authentication").data ("failed").data l
  || searchGap ("login").data ("required").data l

/-- Embedding of `CookieExpiryDetector.is_playlist_url`: case-insensitive
search for `[?&]list=`, `playlist\?` or `/playlist/`. -/
def is_playlist_url (url : String) : Bool :=
  let l := lowerStr url.data
  hasSub ("?list=").data l
  || hasSub ("&list=").data l
  || hasSub ("playlist?").data l
  || hasSub ("/playlist/").data l

example : is_cookie_expired ("HTTP Error 403 Forbidden") = true := by decide
example : is_cookie_expired ("Video unavailable for members") = true := by decide
example : is_cookie_expired ("Connection timeout") = false := by decide
example : is_cookie_expired ("Video not found") = false := by decide
example : is_playlist_url ("https://www.youtube.com/watch?v=test&list=PLtest123") = true := by
  decide
example : is_playlist_url ("https://youtu.be/test123") = false := by decide

/-! ## `RetryConfig` / `RetryHandler` (src/download/retry_handler.py)

The `async` download callable is modelled as `attempts : Nat → Option String`,
giving the outcome of the k-th invocation of `download_func` inside one
orchestrated call (`none` = the awaited call returns, `some e` = it raises an
exception whose `str` is `e`).  The optional callbacks of `RetryHandler` are
modelled by `RetryCallbacks`; `on_retry_attempt` carries only its presence
(its invocations are recorded in the event trace), `on_cookie_refresh_request`
carries presence plus the boolean answer it returns, and
`on_individual_download` carries presence plus its `str -> bool` behaviour,
matching the declared callback signatures. -/

/-- Retry configuration, embedding the fields of `RetryConfig`
(`max_retries = 3`, `retry_delay = 5.0`, both refresh switches on by
default; retry counts are non-negative integers, modelled by `Nat`). -/
structure RetryConfig where
  max_retries : Nat
  retry_delay : Rat
  cookie_refresh_enabled : Bool
  individual_download_on_playlist_fail : Bool

/-- Default `RetryConfig()` constructor values. -/
def RetryConfig.default : RetryConfig :=
  { max_retries := 3
    retry_delay := 5
    cookie_refresh_enabled := true
    individual_download_on_playlist_fail := true }

/-- Presence/behaviour of the three optional callbacks set through
`RetryHandler.set_callbacks`. -/
structure RetryCallbacks where
  on_retry_attempt : Bool
  on_cookie_refresh_request : Option Bool
  on_individual_download : Option (String → Bool)

/-- Observable interactions of one orchestrated call, in order. -/
inductive REvent where
  | attempt (k : Nat)
  | retryNotify (n : Nat) (msg : String)
  | sleep (d : Rat)
  | cookieRefresh (answer : Bool)
  | individualDl (url : String)
deriving DecidableEq

/-- Outcome of one orchestrated call: the returned boolean, the final
`retry_count`, and the ordered event trace. -/
structure RunResult where
  success : Bool
  retry_count : Nat
  events : List REvent
deriving DecidableEq

/-- Message passed to `on_retry_attempt` on the post-refresh retry
(`"Cookie更新後の再試行"` in `_handle_cookie_expiry`). -/
def cookieRetryMsg : String := "Cookie更新後の再試行"

/-- Embedding of `RetryHandler._handle_cookie_expiry`.  `callIdx` is the
index of the next invocation of `download_func`; `rc` is the current
`retry_count`.  The first `match` scrutinee mirrors the nested
`if playlist and enabled: if self.on_individual_download:` structure (a
missing callback falls through to the cookie-refresh section). -/
def handle_cookie_expiry (cfg : RetryConfig) (cb : RetryCallbacks)
    (attempts : Nat → Option String) (url : String) (callIdx rc : Nat) :
    RunResult :=
  match (if is_playlist_url url && cfg.individual_download_on_playlist_fail
         then cb.on_individual_download else none) with
  | some f => ⟨f url, rc, [REvent.individualDl url]⟩
  | none =>
    match (if cfg.cookie_refresh_enabled then cb.on_cookie_refresh_request
           else none) with
    | none => ⟨false, rc, []⟩
    | some ans =>
      if ans = true ∧ rc < cfg.max_retries then
        let evs := REvent.cookieRefresh ans ::
          ((if cb.on_retry_attempt
            then [REvent.retryNotify (rc + 1) cookieRetryMsg] else []) ++
           [REvent.sleep cfg.retry_delay, REvent.attempt callIdx])
        match attempts callIdx with
        | none => ⟨true, rc + 1, evs⟩
        | some _ => ⟨false, rc + 1, evs⟩
      else ⟨false, rc, [REvent.cookieRefresh ans]⟩

/-- Embedding of the `while self.retry_count <= self.config.max_retries`
loop of `RetryHandler.execute_with_retry`.  The loop increments
`retry_count` on every non-terminal iteration, so `max_retries + 1 - rc`
bounds the remaining iterations and serves as structural fuel; the fuel-0
case is the (unreachable from the entry point) loop-condition failure,
which returns `False` like line 108 of the source. -/
def retryGo (cfg : RetryConfig) (cb : RetryCallbacks)
    (attempts : Nat → Option String) (url : String) :
    Nat → Nat → Nat → RunResult
  | _, rc, 0 => ⟨false, rc, []⟩
  | callIdx, rc, fuel + 1 =>
    match attempts callIdx with
    | none => ⟨true, rc, [REvent.attempt callIdx]⟩
    | some e =>
      if is_cookie_expired e then
        let h := handle_cookie_expiry cfg cb attempts url (callIdx + 1) rc
        ⟨h.success, h.retry_count, REvent.attempt callIdx :: h.events⟩
      else if rc < cfg.max_retries then
        let t := retryGo cfg cb attempts url (callIdx + 1) (rc + 1) fuel
        ⟨t.success, t.retry_count,
          REvent.attempt callIdx ::
            ((if cb.on_retry_attempt then [REvent.retryNotify (rc + 1) e]
              else []) ++ [REvent.sleep cfg.retry_delay] ++ t.events)⟩
      else ⟨false, rc, [REvent.attempt callIdx]⟩

/-- Embedding of `RetryHandler.execute_with_retry`: resets `retry_count`
to 0 and runs the loop. -/
def execute_with_retry (cfg : RetryConfig) (cb : RetryCallbacks)
    (attempts : Nat → Option String) (url : String) : RunResult :=
  retryGo cfg cb attempts url 0 0 (cfg.max_retries + 1)

example :
    execute_with_retry RetryConfig.default ⟨true, none, none⟩
      (fun _ => none) ("test_url") = ⟨true, 0, [REvent.attempt 0]⟩ := by
  decide

example :
    (execute_with_retry RetryConfig.default ⟨true, none, none⟩
      (fun _ => some ("Connection timeout")) ("test_url")).success = false := by
  decide

example :
    (execute_with_retry RetryConfig.default ⟨true, none, none⟩
      (fun _ => some ("Connection timeout")) ("test_url")).retry_count = 3 := by
  decide

example :
    (execute_with_retry RetryConfig.default ⟨false, some true, none⟩
      (fun _ => some ("HTTP Error 403 Forbidden")) ("test_url")).success
      = false := by
  decide

/-! ## `DownloadManager` line classification (src/download/manager.py) -/

/-- The `cookie_error_keywords` list of `DownloadManager._is_cookie_error`. -/
def cookieErrorKeywords : List String :=
  ["members-only", "private video", "video is private",
   "requires authentication", "login required",
   "this video is only available for", "membership required",
   "sign in to confirm your age", "access denied"]

/-- Embedding of `DownloadManager._is_cookie_error`: any keyword occurs in
the lower-cased line, or one of the two compound patterns
`video unavailable` + (`private` | `member`) and
`video unavailable` + `sign in` holds. -/
def is_cookie_error (line : String) : Bool :=
  let l := lowerStr line.data
  cookieErrorKeywords.any (fun kw => hasSub kw.data l)
  || (hasSub ("video unavailable").data l
      && (hasSub ("private").data l || hasSub ("member").data l))
  || (hasSub ("video unavailable").data l && hasSub ("sign in").data l)

/-- Embedding of `DownloadManager._detect_download_phase`.  Returns
`some phase` when the line determines a phase and `none` when the caller
keeps the previously known phase.  Extension and `"of" in line` checks are
on the raw line, keyword checks on the lower-cased line, exactly as in the
source. -/
def detect_download_phase (line : String) : Option String :=
  let l := lowerStr line.data
  if hasSub ("merging").data l || hasSub ("ffmpeg").data l
     || hasSub ("post-processing").data l then
    some ("merging")
  else if hasSub ("[download]").data line.data then
    if hasSub (".m4a").data line.data || hasSub (".aac").data line.data
       || hasSub (".opus").data line.data || hasSub (".mp3").data line.data then
      some ("audio")
    else if hasSub (".mp4").data line.data || hasSub (".webm").data line.data
            || hasSub (".mkv").data line.data then
      if hasSub ("audio").data l then some ("audio") else some ("video")
    else if hasSub ("downloading video").data l then some ("video")
    else if hasSub ("downloading audio").data l then some ("audio")
    else if hasSub ("of").data line.data
            && (hasSub ("mib").data l || hasSub ("kib").data l
                || hasSub ("gib").data l) then
      none
    else if hasSub ("audio").data l then some ("audio")
    else if hasSub ("video").data l then some ("video")
    else none
  else none

/-- How `_parse_progress_line` applies the detector to the session:
`if current_phase: self.state.current_phase = current_phase` — a `none`
detection keeps the previously known phase. -/
def apply_phase (prior : String) (line : String) : String :=
  match detect_download_phase line with
  | some p => p
  | none => prior

example : detect_download_phase ("[download]  45.2% of file.mp4") = some ("video") := by
  decide
example : detect_download_phase ("[download] 100% of 45.3MiB") = none := by decide
example : detect_download_phase ("[download] audio.m4a 10%") = some ("audio") := by
  decide

/-- Value of an all-digit character list. -/
def digitsVal (ds : List Char) : Nat :=
  ds.foldl (fun acc c => acc * 10 + (c.toNat - 48)) 0

/-- Model of the builtin `float()` on the simple decimal tokens occurring
in progress lines: optional sign, an integer part and an optional
fractional part (at least one digit overall); other inputs raise
`ValueError`, modelled by `none`.  (Exponent/`inf`/`nan` spellings never
occur in percent tokens and are modelled as `none`.) -/
def pyFloat (s : List Char) : Option Rat :=
  let core : List Char → Option Rat := fun t =>
    let ip := t.takeWhile Char.isDigit
    let rest := t.drop ip.length
    match rest with
    | [] => if ip.isEmpty then none else some (mkRat (digitsVal ip) 1)
    | '.' :: fr =>
      if fr.all Char.isDigit && !(ip.isEmpty && fr.isEmpty) then
        some (mkRat (digitsVal ip * 10 ^ fr.length + digitsVal fr)
          (10 ^ fr.length))
      else none
    | _ => none
  match s with
  | '-' :: t => (core t).map (fun v => mkRat (-v.num) v.den)
  | '+' :: t => core t
  | t => core t

example : pyFloat ("45.3").data = some (mkRat 453 10) := by decide
example : pyFloat ("-10").data = some (mkRat (-10) 1) := by decide
example : pyFloat ("").data = none := by decide

/-- One step of the percent scan in `_parse_progress_line`: a part
contributes iff it ends with `"%"` and, with every `'%'` removed
(`part.replace("%", "")`), parses as a float. -/
def percentTokenVal (w : List Char) : Option Rat :=
  if w.getLast? = some '%' then pyFloat (w.filter (fun c => c ≠ '%'))
  else none

/-- Embedding of the `for i, part in enumerate(parts)` loop of
`_parse_progress_line`: find the first part yielding a percent value,
and capture the following part as the speed token when it contains
`MiB/s` or `KiB/s`. -/
def scanPercentParts : List String → Option (Rat × Option String)
  | [] => none
  | w :: rest =>
    match percentTokenVal w.data with
    | some v =>
      some (v,
        match rest with
        | [] => none
        | nxt :: _ =>
          if hasSub ("MiB/s").data nxt.data || hasSub ("KiB/s").data nxt.data
          then some nxt else none)
    | none => scanPercentParts rest

/-- Embedding of the progress branch of `DownloadManager._parse_progress_line`:
when the line contains `[download]` and `%`, the first percent-bearing
whitespace-separated part determines the (percent, speed) pair delivered to
`progress_callback`; `none` means no progress callback fires from this
branch. -/
def parse_progress_line (line : String) : Option (Rat × Option String) :=
  if hasSub ("[download]").data line.data && hasSub ("%").data line.data then
    scanPercentParts (splitWords line)
  else none

example :
    parse_progress_line ("[download]  45.3% of 10MiB at 2.1MiB/s") =
      some (mkRat 453 10, none) := by decide
example :
    parse_progress_line ("[download] 150% done") = some (mkRat 150 1, none) := by
  decide
example : parse_progress_line ("no marker 45%") = none := by decide

/-! ## `PlaylistExtractor` (src/download/retry_handler.py)

The subprocess run is modelled by its observable outcome: either the
launch raised (`launchError`, covering the `except Exception` path) or
the process exited with a return code and a decoded stdout text. -/

/-- Outcome of the `asyncio.create_subprocess_exec` + `communicate` pair. -/
inductive ProcResult where
  | launchError : ProcResult
  | exited (returncode : Int) (stdout : String) : ProcResult

/-- Embedding of `PlaylistExtractor._is_valid_youtube_url`: `re.match`
(anchored at the start, case-sensitive) of
`https?://(?:(?:www|music|gaming)\.)?youtube\.com/|https?://youtu\.be/`,
unfolded into the ten possible literal prefixes. -/
def is_valid_youtube_url (url : String) : Bool :=
  [("http://youtube.com/"), ("http://www.youtube.com/"),
   ("http://music.youtube.com/"), ("http://gaming.youtube.com/"),
   ("https://youtube.com/"), ("https://www.youtube.com/"),
   ("https://music.youtube.com/"), ("https://gaming.youtube.com/"),
   ("http://youtu.be/"), ("https://youtu.be/")].any
    (fun p => preOf p.data url.data)

/-- Embedding of `PlaylistExtractor.extract_video_urls`: on exit code 0,
split the stripped stdout on newlines, strip each line, and keep the
non-empty lines accepted by `_is_valid_youtube_url`; otherwise (non-zero
exit or launch exception) return `[]`. -/
def extract_video_urls (res : ProcResult) : List String :=
  match res with
  | ProcResult.launchError => []
  | ProcResult.exited rc out =>
    if rc = 0 then
      (splitOnChar '\n' (pyStrip out.data)).filterMap (fun raw =>
        let u := pyStrip raw
        if !u.isEmpty && is_valid_youtube_url (String.mk u) then
          some (String.mk u)
        else none)
    else []

/-- Embedding of `PlaylistExtractor.extract_video_info`: on exit code 0,
split the stripped stdout on newlines and, for each line containing `'|'`,
split at the first `'|'` (`line.split('|', 1)`) and strip both halves;
lines without `'|'` are discarded.  Non-zero exit or launch exception
yields `[]`.  Note: this path applies no URL validation. -/
def extract_video_info (res : ProcResult) : List (String × String) :=
  match res with
  | ProcResult.launchError => []
  | ProcResult.exited rc out =>
    if rc = 0 then
      (splitOnChar '\n' (pyStrip out.data)).filterMap (fun raw =>
        if raw.contains '|' then
          some (String.mk (pyStrip (raw.takeWhile (fun c => c ≠ '|'))),
                String.mk (pyStrip ((raw.dropWhile (fun c => c ≠ '|')).drop 1)))
        else none)
    else []

example :
    extract_video_urls (ProcResult.exited 0
      ("https://youtube.com/watch?v=1\n\ninvalid-url\nhttps://youtube.com/watch?v=2\nhttp://example.com/not-youtube\n")) =
    [("https://youtube.com/watch?v=1"), ("https://youtube.com/watch?v=2")] := by
  decide

example :
    extract_video_info (ProcResult.exited 0
      ("https://youtube.com/watch?v=1|First Title\nbadline\n")) =
    [(("https://youtube.com/watch?v=1"), ("First Title"))] := by
  decide

example : is_valid_youtube_url ("https://example.youtube.com/watch") = false := by
  decide

/-! ## `DownloadState` and the `DownloadManager` lifecycle
(src/download/manager.py)

The process handle and PID are abstracted to `Option Nat`; the scheduled
`Future` is abstracted to `Option Unit`.  Each lifecycle helper is the
pure state transformation the corresponding method performs on
`self.state` (callbacks and OS effects are outside the state). -/

/-- Embedding of the `DownloadState` record. -/
structure DownloadState where
  is_downloading : Bool
  stop_requested : Bool
  current_download_task : Option Unit
  process : Option Nat
  process_pid : Option Nat
  current_phase : String
deriving DecidableEq

/-- Field values set by `DownloadState.__init__`. -/
def DownloadState.init : DownloadState :=
  { is_downloading := false
    stop_requested := false
    current_download_task := none
    process := none
    process_pid := none
    current_phase := "video" }

/-- Embedding of `DownloadManager._prepare_download`. -/
def prepare_download (s : DownloadState) : DownloadState :=
  { s with
      is_downloading := true
      stop_requested := false
      process := none
      process_pid := none
      current_phase := "preparing" }

/-- Embedding of `DownloadManager._cleanup_after_stop`. -/
def cleanup_after_stop (s : DownloadState) : DownloadState :=
  { s with is_downloading := false, process := none, process_pid := none }

/-- Embedding of `DownloadManager._cleanup_after_completion`. -/
def cleanup_after_completion (s : DownloadState) : DownloadState :=
  { s with
      is_downloading := false
      stop_requested := false
      process := none
      process_pid := none }

/-- State effect of `DownloadManager._kill_process_immediately`: the OS
kill attempts touch no session field except clearing `process_pid`. -/
def kill_process_immediately (s : DownloadState) : DownloadState :=
  { s with process_pid := none }

/-- Embedding of `DownloadManager.stop_download`.  `taskDone` is the
externally determined `current_download_task.done()` answer: the task
handle is cancelled and cleared only when a task exists and is not done. -/
def stop_download (taskDone : Bool) (s : DownloadState) : DownloadState :=
  let s1 := kill_process_immediately { s with stop_requested := true }
  let s2 :=
    if s1.current_download_task.isSome && !taskDone then
      { s1 with current_download_task := none }
    else s1
  cleanup_after_stop s2

/-- Embedding of `DownloadManager.start_download`.  `valid` is the outcome
of `_validate_params` (it reads the filesystem); the returned boolean is
the method's return value. -/
def start_download (valid : Bool) (s : DownloadState) : Bool × DownloadState :=
  if !valid then (false, s)
  else if s.is_downloading then (false, s)
  else (true, { prepare_download s with current_download_task := some () })

/-- The C8 invariant: a session that is not downloading owns neither a
process handle nor a PID. -/
def stateInv (s : DownloadState) : Bool :=
  s.is_downloading || (s.process.isNone && s.process_pid.isNone)

/-! ## `DownloadManager._download_video_async` (success emission)

`exec` models the whole `_execute_download` step together with any
concurrent mutation of the session (for example `stop_download` running on
the GUI thread while the process runs): given the session state at entry
it produces the session state at the moment the step finishes, plus how
the step finished. -/

/-- How the awaited `_execute_download(...)` call finished: it returned,
the task was cancelled (`asyncio.CancelledError`), or it raised. -/
inductive ExecOutcome where
  | completed : ExecOutcome
  | cancelled : ExecOutcome
  | raised (msg : String) : ExecOutcome

/-- Callbacks that `_download_video_async` can fire. -/
inductive MEvent where
  | success
  | statusMsg (m : String)
  | errorMsg (m : String)
deriving DecidableEq

/-- The callback emissions of `_download_video_async` after the download
step has finished, reading the session state `s` at that moment: success
(and the completion status) is emitted only when `stop_requested` is false
and `is_downloading` is true at the check, the error callback likewise;
cancellation emits only a status message. -/
def emit_after_execute (s : DownloadState) (outcome : ExecOutcome) :
    List MEvent :=
  match outcome with
  | ExecOutcome.completed =>
    if !s.stop_requested && s.is_downloading then
      [MEvent.success, MEvent.statusMsg ("ダウンロード完了！")]
    else []
  | ExecOutcome.cancelled => [MEvent.statusMsg ("ダウンロードがキャンセルされました")]
  | ExecOutcome.raised m =>
    if !s.stop_requested && s.is_downloading then
      [MEvent.errorMsg (String.append ("ダウンロードエラー: ") m)]
    else []

/-- Embedding of `DownloadManager._download_video_async`: an immediate
return when `stop_requested` is already set at entry, otherwise the
emissions computed from the state at the end of the download step; the
`finally` block always runs `_cleanup_after_completion`. -/
def download_video_async (s0 : DownloadState)
    (exec : DownloadState → DownloadState × ExecOutcome) :
    List MEvent × DownloadState :=
  if s0.stop_requested then ([], cleanup_after_completion s0)
  else
    let r := exec s0
    (emit_after_execute r.1 r.2, cleanup_after_completion r.1)

/-- Embedding of `DownloadManager.update_retry_config`. -/
def update_retry_config (cfg : RetryConfig) (enable_retry : Bool)
    (max_retries : Nat) (enable_individual_download : Bool) : RetryConfig :=
  { cfg with
      max_retries := if enable_retry then max_retries else 0
      individual_download_on_playlist_fail := enable_individual_download }

/-! ## Claims -/

/-- C10: `update_retry_config(enable_retry, max_retries,
enable_individual_download)` stores `max_retries` as 0 when `enable_retry`
is false and as exactly the given value when it is true, and always stores
`enable_individual_download` into `individual_download_on_playlist_fail`. -/
theorem C10_update_retry_config (cfg : RetryConfig) (mr : Nat) (eid : Bool) :
    (update_retry_config cfg false mr eid).max_retries = 0 ∧
    (update_retry_config cfg true mr eid).max_retries = mr ∧
    ∀ er : Bool,
      (update_retry_config cfg er mr eid).individual_download_on_playlist_fail
        = eid :=
  ⟨rfl, rfl, fun _ => rfl⟩

/-- C8: the invariant `is_downloading = false → process = none ∧
process_pid = none` holds after construction and is preserved by every
lifecycle operation of the manager: prepare, cleanup-after-stop,
cleanup-after-completion, stop, and start (for either validation
outcome). -/
theorem C8_state_invariant (s : DownloadState) (hs : stateInv s = true) :
    stateInv DownloadState.init = true ∧
    stateInv (prepare_download s) = true ∧
    stateInv (cleanup_after_stop s) = true ∧
    stateInv (cleanup_after_completion s) = true ∧
    (∀ taskDone, stateInv (stop_download taskDone s) = true) ∧
    (∀ valid, stateInv (start_download valid s).2 = true) := by
  refine ⟨by decide, ?_, ?_, ?_, ?_, ?_⟩
  · simp [stateInv, prepare_download]
  · simp [stateInv, cleanup_after_stop]
  · simp [stateInv, cleanup_after_completion]
  · intro td
    simp [stateInv, stop_download, cleanup_after_stop]
  · intro v
    cases v with
    | false => simpa [start_download] using hs
    | true =>
      by_cases hd : s.is_downloading = true
      · simpa [start_download, hd] using hs
      · simp [start_download, hd, stateInv, prepare_download]

/-- Witness for C8 at the freshly constructed state. -/
theorem C8_witness : stateInv DownloadState.init = true :=
  (C8_state_invariant DownloadState.init (by decide)).1

/-- C9: if `stop_requested` is true at the moment the download step
finishes — whatever way it finished, including a normal exit of the
external process — the success callback is not emitted for that session. -/
theorem C9_no_success_after_stop (s0 : DownloadState)
    (exec : DownloadState → DownloadState × ExecOutcome)
    (h : (exec s0).1.stop_requested = true) :
    MEvent.success ∉ (download_video_async s0 exec).1 := by
  by_cases h0 : s0.stop_requested = true
  · simp [download_video_async, h0]
  · simp only [download_video_async, h0, if_false, Bool.false_eq_true]
    cases ho : (exec s0).2 with
    | completed => simp [emit_after_execute, ho, h]
    | cancelled => simp [emit_after_execute, ho]
    | raised m => simp [emit_after_execute, ho, h]

/-- Witness for C9: the process finishes normally but a stop request
arrived during execution; no success event is emitted. -/
theorem C9_witness :
    MEvent.success ∉
      (download_video_async (prepare_download DownloadState.init)
        (fun s => ({ s with stop_requested := true },
                   ExecOutcome.completed))).1 :=
  C9_no_success_after_stop (prepare_download DownloadState.init)
    (fun s => ({ s with stop_requested := true }, ExecOutcome.completed))
    (by decide)

/-- C4: `_is_cookie_error` returns false on a bare `Video unavailable`
line (with or without a plain prefix), and returns true on every line
that contains, case-insensitively, `video unavailable` together with
`private`, `member`, or `sign in`. -/
theorem C4_video_unavailable (s : String) :
    is_cookie_error ("Video unavailable") = false ∧
    is_cookie_error ("ERROR: Video unavailable") = false ∧
    (hasSub ("video unavailable").data (lowerStr s.data) = true →
      (hasSub ("private").data (lowerStr s.data) = true ∨
       hasSub ("member").data (lowerStr s.data) = true ∨
       hasSub ("sign in").data (lowerStr s.data) = true) →
      is_cookie_error s = true) := by
  refine ⟨by decide, by decide, ?_⟩
  intro h1 h2
  unfold is_cookie_error
  rcases h2 with h | h | h <;> simp [h1, h]

/-- Witness for C4 on a concrete qualifying line. -/
theorem C4_witness :
    is_cookie_error ("Video unavailable: this video is private") = true :=
  (C4_video_unavailable ("Video unavailable: this video is private")).2.2
    (by decide) (Or.inl (by decide))

/-- C5 counterexample: a line containing the audio extension token
`.m4a` but no `[download]` marker does not make the detector yield
`audio`; the previously known phase is kept instead. -/
theorem C5_counterexample :
    hasSub (".m4a").data ("50.0% of file.m4a").data = true ∧
    detect_download_phase ("50.0% of file.m4a") = none ∧
    apply_phase ("video") ("50.0% of file.m4a") = "video" ∧
    apply_phase ("video") ("50.0% of file.m4a") ≠ "audio" := by decide

/-- C5 (amended): for every line carrying the `[download]` marker, an
audio-container extension token (`.m4a`, `.aac`, `.opus`, `.mp3`), and no
merging marker (`merging`, `ffmpeg`, `post-processing`,
case-insensitively), the detector yields phase `audio`, regardless of the
previously known phase. -/
theorem C5_audio_extension (line prior : String)
    (hdl : hasSub ("[download]").data line.data = true)
    (hext : hasSub (".m4a").data line.data = true ∨
            hasSub (".aac").data line.data = true ∨
            hasSub (".opus").data line.data = true ∨
            hasSub (".mp3").data line.data = true)
    (hm : hasSub ("merging").data (lowerStr line.data) = false)
    (hf : hasSub ("ffmpeg").data (lowerStr line.data) = false)
    (hp : hasSub ("post-processing").data (lowerStr line.data) = false) :
    detect_download_phase line = some ("audio") ∧
    apply_phase prior line = "audio" := by
  have hd : detect_download_phase line = some ("audio") := by
    unfold detect_download_phase
    rcases hext with h | h | h | h <;> simp [hm, hf, hp, hdl, h]
  exact ⟨hd, by simp [apply_phase, hd]⟩

/-- Witness for C5 (amended) on a concrete audio fragment line with prior
phase `video`. -/
theorem C5_witness :
    detect_download_phase ("[download]  12.5% of audio.m4a") = some ("audio") ∧
    apply_phase ("video") ("[download]  12.5% of audio.m4a") = "audio" :=
  C5_audio_extension ("[download]  12.5% of audio.m4a") ("video")
    (by decide) (Or.inl (by decide)) (by decide) (by decide) (by decide)

/-- C7 counterexample: the (url, title) extraction keeps a pair whose URL
fails `_is_valid_youtube_url` — no URL-shape validation is applied on this
path. -/
theorem C7_counterexample :
    extract_video_info (ProcResult.exited 0 ("ftp://evil.example/x|Some Title")) =
      [(("ftp://evil.example/x"), ("Some Title"))] ∧
    is_valid_youtube_url ("ftp://evil.example/x") = false := by decide

/-- C7 (amended): both extraction paths return `[]` on a launch exception
or a non-zero exit; every (url, title) pair returned by
`extract_video_info` comes from an output line containing `'|'`, split at
the first `'|'` with both halves stripped (no URL validation on this
path); and every URL returned by `extract_video_urls` passes
`_is_valid_youtube_url`. -/
theorem C7_extraction (rc : Int) (out : String) :
    extract_video_info ProcResult.launchError = [] ∧
    extract_video_urls ProcResult.launchError = [] ∧
    (rc ≠ 0 →
      extract_video_info (ProcResult.exited rc out) = [] ∧
      extract_video_urls (ProcResult.exited rc out) = []) ∧
    (∀ p ∈ extract_video_info (ProcResult.exited 0 out),
      ∃ raw ∈ splitOnChar '\n' (pyStrip out.data),
        raw.contains '|' = true ∧
        p = (String.mk (pyStrip (raw.takeWhile (fun c => c ≠ '|'))),
             String.mk (pyStrip ((raw.dropWhile (fun c => c ≠ '|')).drop 1)))) ∧
    (∀ u ∈ extract_video_urls (ProcResult.exited 0 out),
      is_valid_youtube_url u = true) := by
  refine ⟨rfl, rfl, ?_, ?_, ?_⟩
  · intro h
    exact ⟨by simp [extract_video_info, h], by simp [extract_video_urls, h]⟩
  · intro p hp
    simp only [extract_video_info, eq_self_iff_true, if_true,
      List.mem_filterMap] at hp
    obtain ⟨raw, hraw, hf⟩ := hp
    by_cases hc : raw.contains '|' = true
    · rw [if_pos hc] at hf
      exact ⟨raw, hraw, hc, (Option.some.inj hf).symm⟩
    · rw [if_neg hc] at hf
      cases hf
  · intro u hu
    simp only [extract_video_urls, eq_self_iff_true, if_true,
      List.mem_filterMap] at hu
    obtain ⟨raw, hraw, hf⟩ := hu
    by_cases hc : (!(pyStrip raw).isEmpty
        && is_valid_youtube_url (String.mk (pyStrip raw))) = true
    · rw [if_pos hc] at hf
      rw [← Option.some.inj hf]
      simp only [Bool.and_eq_true] at hc
      exact hc.2
    · rw [if_neg hc] at hf
      cases hf

/-- Witness for C7 (amended): a failing exit code yields empty results. -/
theorem C7_witness :
    extract_video_info (ProcResult.exited 1 ("a|b")) = [] ∧
    extract_video_urls (ProcResult.exited 1 ("a|b")) = [] :=
  (C7_extraction 1 ("a|b")).2.2.1 (by decide)

/-- C2: a credential error on the first attempt, with a playlist URL and
the individual-download fallback enabled and wired, delegates to the
playlist-fallback collaborator exactly once with the original URL, sleeps
no generic retry delay, and returns the collaborator's boolean result
with no further attempts. -/
theorem C2_playlist_fallback (cfg : RetryConfig) (cb : RetryCallbacks)
    (attempts : Nat → Option String) (url e : String) (f : String → Bool)
    (h0 : attempts 0 = some e)
    (hcook : is_cookie_expired e = true)
    (hpl : is_playlist_url url = true)
    (hen : cfg.individual_download_on_playlist_fail = true)
    (hcb : cb.on_individual_download = some f) :
    execute_with_retry cfg cb attempts url =
      ⟨f url, 0, [REvent.attempt 0, REvent.individualDl url]⟩ ∧
    ∀ d, REvent.sleep d ∉ (execute_with_retry cfg cb attempts url).events := by
  have hmain : execute_with_retry cfg cb attempts url =
      ⟨f url, 0, [REvent.attempt 0, REvent.individualDl url]⟩ := by
    simp [execute_with_retry, retryGo, handle_cookie_expiry,
      h0, hcook, hpl, hen, hcb]
  refine ⟨hmain, ?_⟩
  rw [hmain]
  intro d
  simp

/-- Witness for C2 with the collaborator answering `true` on a concrete
playlist URL and a members-only error. -/
theorem C2_witness :
    execute_with_retry RetryConfig.default ⟨true, some true, some (fun _ => true)⟩
      (fun _ => some ("Members-only content"))
      ("https://www.youtube.com/playlist?list=test123") =
    ⟨true, 0, [REvent.attempt 0,
               REvent.individualDl ("https://www.youtube.com/playlist?list=test123")]⟩ :=
  (C2_playlist_fallback RetryConfig.default ⟨true, some true, some (fun _ => true)⟩
    (fun _ => some ("Members-only content"))
    ("https://www.youtube.com/playlist?list=test123")
    ("Members-only content") (fun _ => true)
    rfl (by decide) (by decide) rfl rfl).1

/-- C3: in `_handle_cookie_expiry`, when the playlist-fallback branch does
not apply and credential refresh is enabled: a granted refresh with
`retry_count < max_retries` increments the count, emits one retry
notification, sleeps once and re-attempts exactly once, a failure of that
extra attempt returning failure; a declined refresh, or exhausted retries,
returns failure with no further attempt. -/
theorem C3_refresh_paths (cfg : RetryConfig) (cb : RetryCallbacks)
    (attempts : Nat → Option String) (url : String) (callIdx rc : Nat)
    (hna : is_playlist_url url = false ∨
           cfg.individual_download_on_playlist_fail = false ∨
           cb.on_individual_download = none)
    (hen : cfg.cookie_refresh_enabled = true)
    (hra : cb.on_retry_attempt = true) :
    ((cb.on_cookie_refresh_request = some true) → rc < cfg.max_retries →
      ∀ e, attempts callIdx = some e →
        handle_cookie_expiry cfg cb attempts url callIdx rc =
          ⟨false, rc + 1,
            [REvent.cookieRefresh true,
             REvent.retryNotify (rc + 1) cookieRetryMsg,
             REvent.sleep cfg.retry_delay, REvent.attempt callIdx]⟩) ∧
    ((cb.on_cookie_refresh_request = some false) →
      handle_cookie_expiry cfg cb attempts url callIdx rc =
        ⟨false, rc, [REvent.cookieRefresh false]⟩) ∧
    ((cb.on_cookie_refresh_request = some true) → cfg.max_retries ≤ rc →
      handle_cookie_expiry cfg cb attempts url callIdx rc =
        ⟨false, rc, [REvent.cookieRefresh true]⟩) := by
  have hscrut :
      (if is_playlist_url url && cfg.individual_download_on_playlist_fail
       then cb.on_individual_download else none) = none := by
    rcases hna with h | h | h <;> simp [h]
  refine ⟨?_, ?_, ?_⟩
  · intro hr hlt e he
    unfold handle_cookie_expiry
    rw [hscrut]
    simp [hen, hr, hra, he, hlt]
  · intro hr
    unfold handle_cookie_expiry
    rw [hscrut]
    simp [hen, hr]
  · intro hr hge
    unfold handle_cookie_expiry
    rw [hscrut]
    simp [hen, hr, Nat.not_lt.mpr hge]

/-- Witness for C3: a granted refresh at `retry_count = 0`, a failing
extra attempt, no individual-download callback wired. -/
theorem C3_witness :
    handle_cookie_expiry RetryConfig.default ⟨true, some true, none⟩
      (fun _ => some ("HTTP Error 403: Forbidden")) ("https://youtu.be/abc") 1 0 =
    ⟨false, 1,
      [REvent.cookieRefresh true, REvent.retryNotify 1 cookieRetryMsg,
       REvent.sleep (RetryConfig.default).retry_delay, REvent.attempt 1]⟩ :=
  (C3_refresh_paths RetryConfig.default ⟨true, some true, none⟩
    (fun _ => some ("HTTP Error 403: Forbidden")) ("https://youtu.be/abc") 1 0
    (Or.inr (Or.inr rfl)) rfl rfl).1 rfl (by decide)
    ("HTTP Error 403: Forbidden") rfl

/-- Loop invariant for the always-failing transient case: starting from
`retry_count = rc` with fuel `max_retries + 1 - rc` (here written as
`fuel + 1` with `rc + fuel = max_retries`), the loop ends in failure with
`retry_count = max_retries`, and every retry notification it emits
carries a count `≤ max_retries`. -/
theorem retryGo_transient (cfg : RetryConfig) (cb : RetryCallbacks)
    (attempts : Nat → Option String) (url : String)
    (htrans : ∀ k e, attempts k = some e → is_cookie_expired e = false)
    (hfail : ∀ k, attempts k ≠ none) :
    ∀ fuel callIdx rc, rc + fuel = cfg.max_retries →
      (retryGo cfg cb attempts url callIdx rc (fuel + 1)).success = false ∧
      (retryGo cfg cb attempts url callIdx rc (fuel + 1)).retry_count
        = cfg.max_retries ∧
      ∀ n m,
        REvent.retryNotify n m ∈
          (retryGo cfg cb attempts url callIdx rc (fuel + 1)).events →
        n ≤ cfg.max_retries := by
  intro fuel
  induction fuel with
  | zero =>
    intro callIdx rc h
    rw [Nat.add_zero] at h
    subst h
    cases he : attempts callIdx with
    | none => exact absurd he (hfail callIdx)
    | some e => simp [retryGo, he, htrans callIdx e he]
  | succ fuel ih =>
    intro callIdx rc h
    cases he : attempts callIdx with
    | none => exact absurd he (hfail callIdx)
    | some e =>
      have hlt : rc < cfg.max_retries := by omega
      obtain ⟨ih1, ih2, ih3⟩ := ih (callIdx + 1) (rc + 1) (by omega)
      have hstep : retryGo cfg cb attempts url callIdx rc (fuel + 1 + 1) =
          ⟨(retryGo cfg cb attempts url (callIdx + 1) (rc + 1) (fuel + 1)).success,
           (retryGo cfg cb attempts url (callIdx + 1) (rc + 1) (fuel + 1)).retry_count,
           REvent.attempt callIdx ::
             ((if cb.on_retry_attempt then [REvent.retryNotify (rc + 1) e]
               else []) ++
              [REvent.sleep cfg.retry_delay] ++
              (retryGo cfg cb attempts url (callIdx + 1) (rc + 1)
                (fuel + 1)).events)⟩ := by
        conv_lhs => rw [retryGo]
        simp [he, htrans callIdx e he, hlt]
      rw [hstep]
      refine ⟨ih1, ih2, ?_⟩
      intro n m hm
      cases hra : cb.on_retry_attempt with
      | true =>
        rw [hra] at hm
        simp at hm
        rcases hm with ⟨hn, _⟩ | hm
        · omega
        · exact ih3 n m hm
      | false =>
        rw [hra] at hm
        simp at hm
        exact ih3 n m hm

/-- C1: when every attempt raises a non-credential (transient) error, the
orchestrated call reports failure, the final `retry_count` equals
`max_retries`, and no retry notification ever carries a count above
`max_retries` (the count never exceeds the bound at any point). -/
theorem C1_transient_exhaustion (cfg : RetryConfig) (cb : RetryCallbacks)
    (attempts : Nat → Option String) (url : String)
    (htrans : ∀ k e, attempts k = some e → is_cookie_expired e = false)
    (hfail : ∀ k, attempts k ≠ none) :
    (execute_with_retry cfg cb attempts url).success = false ∧
    (execute_with_retry cfg cb attempts url).retry_count = cfg.max_retries ∧
    ∀ n m,
      REvent.retryNotify n m ∈ (execute_with_retry cfg cb attempts url).events →
      n ≤ cfg.max_retries := by
  have h := retryGo_transient cfg cb attempts url htrans hfail
    cfg.max_retries 0 0 (by omega)
  simpa [execute_with_retry] using h

/-- Witness for C1 with `max_retries = 3` and a perpetual transient
error: the call returns `False` with `retry_count = 3`. -/
theorem C1_witness :
    (execute_with_retry RetryConfig.default ⟨true, none, none⟩
      (fun _ => some ("Connection timeout")) ("test_url")).success = false ∧
    (execute_with_retry RetryConfig.default ⟨true, none, none⟩
      (fun _ => some ("Connection timeout")) ("test_url")).retry_count = 3 := by
  have h := C1_transient_exhaustion RetryConfig.default ⟨true, none, none⟩
    (fun _ => some ("Connection timeout")) ("test_url")
    (fun _ e he => by
      rw [← Option.some.inj he]
      decide)
    (fun _ h => Option.noConfusion h)
  exact ⟨h.1, h.2.1⟩

/-- Parts that yield no percent value are skipped by the scan. -/
theorem scanPercentParts_skip (pre rest : List String)
    (hpre : ∀ w ∈ pre, percentTokenVal w.data = none) :
    scanPercentParts (pre ++ rest) = scanPercentParts rest := by
  induction pre with
  | nil => rfl
  | cons a t ih =>
    have ha := hpre a (List.mem_cons_self a t)
    rw [List.cons_append]
    rw [show scanPercentParts (a :: (t ++ rest)) =
      scanPercentParts (t ++ rest) by simp [scanPercentParts, ha]]
    exact ih (fun w hw => hpre w (List.mem_cons_of_mem a hw))

/-- C6: whatever float the first percent-bearing token of a progress line
parses to — including values outside [0, 100] — that exact value is the
one delivered to the progress callback, unclamped and unmodified. -/
theorem C6_percent_passthrough (line : String) (pre : List String)
    (tok : String) (post : List String) (v : Rat)
    (hsplit : splitWords line = pre ++ tok :: post)
    (hpre : ∀ w ∈ pre, percentTokenVal w.data = none)
    (htok : percentTokenVal tok.data = some v)
    (hv : v < 0 ∨ 100 < v)
    (hdl : hasSub ("[download]").data line.data = true)
    (hpct : hasSub ("%").data line.data = true) :
    (parse_progress_line line).map Prod.fst = some v := by
  unfold parse_progress_line
  rw [hdl, hpct]
  simp only [Bool.and_self, if_true]
  rw [hsplit, scanPercentParts_skip pre (tok :: post) hpre]
  simp [scanPercentParts, htok]

/-- Witness for C6 at the out-of-range value 150. -/
theorem C6_witness :
    (parse_progress_line ("[download] 150% of 10MiB")).map Prod.fst =
      some (mkRat 150 1) :=
  C6_percent_passthrough ("[download] 150% of 10MiB") [("[download]")]
    ("150%") [("of"), ("10MiB")] (mkRat 150 1)
    (by decide)
    (by
      intro w hw
      rw [List.mem_singleton] at hw
      rw [hw]
      decide)
    (by decide)
    (Or.inr (by decide))
    (by decide) (by decide)
